import Mathlib

/-!
Shallow embedding of the core logic of the ProjetoRoselar repository
(`config/core/validador.py`, `config/core/models.py`, `config/sales/models.py`,
`config/sales/views.py`), together with theorems settling the frozen claims
about it.

Conventions of the embedding:
* Python `Decimal` values are modelled as `ℚ` (the code performs only
  additions, multiplications and divisions by 100 on values well inside the
  28-significant-digit default `Decimal` context, so the arithmetic is exact).
* Strings are Lean `String`s; Python's `re.sub(r"\D", "", s)` is modelled as
  filtering on ASCII digits (`Char.isDigit`).
* Database rows are Lean structures; a view's database effects are modelled as
  explicit state passing.  `transaction.atomic` is modelled by a wrapper that
  returns the pre-state whenever the transaction body raises
  (`Except.error`), mirroring automatic rollback.
-/

namespace Roselar

/-! ## Document validators (`config/core/validador.py`) -/

/-- Embeds `int(c)` on an ASCII digit character. -/
def digitVal (c : Char) : ℕ := c.toNat - 48

/-- Embeds `_only_digits` (validador.py line 5): `re.sub(r"\D", "", value or "")`. -/
def only_digits (value : String) : List Char :=
  value.data.filter Char.isDigit

/-- The weighted sum of `validate_cpf` (validador.py line 16):
`sum(int(cpf[num]) * ((i + 1) - num) for num in range(i))`. -/
def cpfWeightedSum (ds : List ℕ) (i : ℕ) : ℕ :=
  ((List.range i).map (fun num => ds.getD num 0 * (i + 1 - num))).sum

/-- The check digit computed by one iteration of the `validate_cpf` loop
(validador.py lines 16-18): `digit = (total * 10) % 11`, then `10 ↦ 0`. -/
def cpfCheckDigit (ds : List ℕ) (i : ℕ) : ℕ :=
  let digit := (cpfWeightedSum ds i * 10) % 11
  if digit = 10 then 0 else digit

/-- The person-ID check-digit rule as the specification words it: the
weighted sum (descending position-dependent weights, times 10) modulo 11,
with a remainder ≥ 10 mapped to 0.  Stated with `≥ 10` (the code tests
`= 10`); compared against `cpfCheckDigit` in the theorems. -/
def cpfCheckDigitSpec (ds : List ℕ) (i : ℕ) : ℕ :=
  let r := (cpfWeightedSum ds i * 10) % 11
  if 10 ≤ r then 0 else r

/-- Embeds `validate_cpf` (validador.py lines 9-21).  `Except.error` models a raised
`ValidationError`; the two loop iterations (`i = 9, 10`) are unrolled. -/
def validate_cpf (value : String) : Except String Unit :=
  let cpf := only_digits value
  let ds := cpf.map digitVal
  if cpf.length ≠ 11 ∨ cpf = List.replicate 11 (cpf.headD '0') then
    Except.error "CPF inválido."
  else if cpfCheckDigit ds 9 ≠ ds.getD 9 0 then
    Except.error "CPF inválido."
  else if cpfCheckDigit ds 10 ≠ ds.getD 10 0 then
    Except.error "CPF inválido."
  else
    Except.ok ()

/-- Embeds `weights_1` of `validate_cnpj` (validador.py line 30). -/
def cnpjWeights1 : List ℕ := [5, 4, 3, 2, 9, 8, 7, 6, 5, 4, 3, 2]

/-- Embeds `weights_2 = [6] + weights_1` (validador.py line 31). -/
def cnpjWeights2 : List ℕ := 6 :: cnpjWeights1

/-- The weighted sum of `validate_cnpj` (validador.py line 34):
`sum(int(cnpj[i]) * weights[i] for i in range(len(weights)))`. -/
def cnpjWeightedSum (ds ws : List ℕ) : ℕ :=
  ((List.range ws.length).map (fun i => ds.getD i 0 * ws.getD i 0)).sum

/-- The check digit computed by one iteration of the `validate_cnpj` loop
(validador.py lines 34-36): `digit = 11 - (total % 11)`, then `≥ 10 ↦ 0`. -/
def cnpjCheckDigit (ds ws : List ℕ) : ℕ :=
  let digit := 11 - cnpjWeightedSum ds ws % 11
  if 10 ≤ digit then 0 else digit

/-- The company-ID check-digit rule as the specification words it:
`digit = 11 − (weighted sum mod 11)`, with results ≥ 10 mapped to 0. -/
def cnpjCheckDigitSpec (ds ws : List ℕ) : ℕ :=
  let r := cnpjWeightedSum ds ws % 11
  if 10 ≤ 11 - r then 0 else 11 - r

/-- Embeds `validate_cnpj` (validador.py lines 24-39), the two loop iterations
(`(weights_1, 12)` and `(weights_2, 13)`) unrolled. -/
def validate_cnpj (value : String) : Except String Unit :=
  let cnpj := only_digits value
  let ds := cnpj.map digitVal
  if cnpj.length ≠ 14 ∨ cnpj = List.replicate 14 (cnpj.headD '0') then
    Except.error "CNPJ inválido."
  else if cnpjCheckDigit ds cnpjWeights1 ≠ ds.getD 12 0 then
    Except.error "CNPJ inválido."
  else if cnpjCheckDigit ds cnpjWeights2 ≠ ds.getD 13 0 then
    Except.error "CNPJ inválido."
  else
    Except.ok ()

/-! ## Domain records (`config/sales/models.py`) -/

/-- Embeds `QuoteStatus` (sales/models.py lines 25-30). -/
inductive QuoteStatus where
  | DRAFT
  | SENT
  | APPROVED
  | CONVERTED
  | CANCELED
deriving Repr, DecidableEq

/-- Embeds `FreightResponsible` (sales/models.py lines 33-37). -/
inductive FreightResponsible where
  | STORE
  | CUSTOMER
  | CARRIER
deriving Repr, DecidableEq

/-- The `Quote` row (sales/models.py lines 40-129).  Foreign keys are modelled
by surrogate identifiers (`customer` as a numeric id, `seller` and
`discount_authorized_by` as usernames), dates/timestamps as numbers. -/
structure Quote where
  number : String
  customer : ℕ
  seller : String
  status : QuoteStatus
  quote_date : ℕ
  delivery_deadline : Option ℕ
  freight_value : ℚ
  freight_responsible : FreightResponsible
  shipping_company : Option ℕ
  shipping_payment_method : String
  discount_percent : ℚ
  discount_authorized_by : Option String
  discount_authorized_at : Option ℕ
  has_architect : Bool
  payment_type : String
  payment_installments : ℕ
  payment_fee_percent : ℚ
  total_value_snapshot : ℚ
deriving Repr, DecidableEq

/-- The `QuoteItem` row (sales/models.py lines 183-226). -/
structure QuoteItem where
  id : ℕ
  supplier_id : Option ℕ
  product_name : String
  description : String
  quantity : ℕ
  unit_value : ℚ
  condition_text : String
  architect_percent : ℚ
deriving Repr, DecidableEq

/-- The `Order` row as created by the conversion view (sales/models.py
lines 251-269); `status` is the raw string passed by the view. -/
structure OrderRec where
  number : String
  supplier : Option ℕ
  is_total_conference : Bool
  status : String
deriving Repr, DecidableEq

/-- The `OrderItem` row (sales/models.py lines 302-320); `quote_item` is the
nullable back-reference to the source `QuoteItem`'s id. -/
structure OrderItemRec where
  product_name : String
  description : String
  quantity : ℕ
  purchase_unit_cost : ℚ
  quote_item : Option ℕ
deriving Repr, DecidableEq

/-! ## Pricing calculator (`Quote.calculate_*`, sales/models.py lines 157-179) -/

/-- Embeds `QuoteItem.line_total` (sales/models.py lines 224-226):
`(self.unit_value or 0.00) * Decimal(self.quantity or 0)`.  The `or` guards
are no-ops here since the fields are non-nullable with defaults. -/
def line_total (it : QuoteItem) : ℚ :=
  it.unit_value * (it.quantity : ℚ)

/-- Embeds `Quote.calculate_subtotal` (sales/models.py lines 157-160):
`sum(item.line_total for item in self.items.all())` (Python `sum` starts
at 0, so zero items give 0). -/
def calculate_subtotal (items : List QuoteItem) : ℚ :=
  (items.map line_total).sum

/-- Embeds `Quote.calculate_total_with_freight_and_discount` (sales/models.py
lines 162-167).  The `or` guards are no-ops for the non-nullable fields. -/
def calculate_total_with_freight_and_discount (q : Quote) (items : List QuoteItem) : ℚ :=
  let subtotal := calculate_subtotal items
  let with_freight := subtotal + q.freight_value
  let discount_value := with_freight * q.discount_percent / 100
  with_freight - discount_value

/-- Embeds `Quote.calculate_payment_fee_value` (sales/models.py lines 169-173). -/
def calculate_payment_fee_value (q : Quote) (items : List QuoteItem) : ℚ :=
  calculate_total_with_freight_and_discount q items * q.payment_fee_percent / 100

/-- Embeds `Quote.calculate_final_total` (sales/models.py lines 175-179). -/
def calculate_final_total (q : Quote) (items : List QuoteItem) : ℚ :=
  calculate_total_with_freight_and_discount q items + calculate_payment_fee_value q items

/-! ## ArchitectCommission singleton (`config/core/models.py` lines 204-231) -/

/-- One `ArchitectCommission` row. -/
structure AcRow where
  pk : ℕ
  commission_percent : ℚ
deriving Repr, DecidableEq

/-- The model field default `commission_percent = 10.0`
(core/models.py line 209). -/
def acDefaultPercent : ℚ := 10

/-- Embeds `ArchitectCommission.save` (core/models.py lines 222-225): `self.pk = 1`
then `super().save()`, i.e. insert-or-update of the row with primary key 1. -/
def acSave (db : List AcRow) (percent : ℚ) : List AcRow :=
  if db.any (fun r => r.pk == 1) then
    db.map (fun r => if r.pk = 1 then { r with commission_percent := percent } else r)
  else
    db ++ [{ pk := 1, commission_percent := percent }]

/-- Embeds `ArchitectCommission.get_commission` (core/models.py lines 227-231):
`get_or_create(pk=1)` (creating with field defaults) then return
`obj.commission_percent`.  Returns the value together with the new table. -/
def get_commission (db : List AcRow) : ℚ × List AcRow :=
  match db.find? (fun r => r.pk == 1) with
  | some r => (r.commission_percent, db)
  | none =>
      (acDefaultPercent, db ++ [{ pk := 1, commission_percent := acDefaultPercent }])

/-- A client-visible operation on the `ArchitectCommission` table: a `save`
with some percentage, or a `get_commission` read. -/
inductive AcOp where
  | save (percent : ℚ)
  | read
deriving Repr

/-- Effect of one `AcOp` on the table. -/
def acStep (db : List AcRow) (op : AcOp) : List AcRow :=
  match op with
  | AcOp.save p => acSave db p
  | AcOp.read => (get_commission db).2

/-- The table resulting from a sequence of operations on an initially empty
table. -/
def acRun (ops : List AcOp) : List AcRow :=
  ops.foldl acStep []

/-! ## Quote conversion (`quote_convert_to_orders`, sales/views.py lines 355-478) -/

/-- The database state touched by the conversion view, restricted to one
quote: the `Quote` row, its `QuoteItem`s (in their stored order), the
`Order` rows already associated with the quote (each with its `OrderItem`s),
and the ids of the `QuoteItemImage` rows attached to the quote's items. -/
structure ConvSt where
  quote : Quote
  items : List QuoteItem
  orders : List (OrderRec × List OrderItemRec)
  images : List ℕ
deriving Repr, DecidableEq

/-- The `OrderItem(...)` constructor call of the conversion view
(sales/views.py lines 411-418 and 432-439): copy product name, description
and quantity, use the quote item's `unit_value` as `purchase_unit_cost`, and
keep a back-reference to the source `QuoteItem`. -/
def toOrderItem (it : QuoteItem) : OrderItemRec :=
  { product_name := it.product_name
    description := it.description
    quantity := it.quantity
    purchase_unit_cost := it.unit_value
    quote_item := some it.id }

/-- The distinct keys of a list in order of first occurrence.  This is the
iteration order of the `defaultdict` built at sales/views.py lines 393-395
(Python dicts iterate keys in insertion order, i.e. first occurrence). -/
def firstKeys {α : Type} [DecidableEq α] : List α → List α
  | [] => []
  | a :: l => a :: (firstKeys l).filter (fun x => decide (x ≠ a))

/-- The body of the `transaction.atomic()` block of `quote_convert_to_orders`
(sales/views.py lines 373-455).  `Except.error` models a raised
`ValidationError`; a successful run returns the post-transaction state.
The per-supplier loop (lines 400-420) appends, for each supplier key in
`defaultdict` order, one `Order` plus its bulk-created `OrderItem`s; the
grouping `by_supplier[it.supplier_id].append(it)` makes each group the
subsequence of `items` with that supplier, in original order, which is
exactly `items.filter (supplier_id = k)`. -/
def convertBody (st : ConvSt) : Except String ConvSt :=
  -- 1) basic blocks (lines 375-383)
  if st.orders.isEmpty = false then
    Except.error "Este orçamento já foi convertido."
  else if st.quote.status = QuoteStatus.CANCELED then
    Except.error "Orçamento cancelado não pode ser convertido."
  else
    let items := st.items
    if items.isEmpty then
      Except.error "Orçamento sem itens não pode ser convertido."
    else
      -- 2) every item needs a supplier (lines 386-390)
      let missing_supplier := items.filter (fun it => decide (it.supplier_id = none))
      if missing_supplier.isEmpty = false then
        let nomes := String.intercalate ", "
          ((missing_supplier.take 5).map (fun it => it.product_name))
        let extra :=
          if missing_supplier.length ≤ 5 then ""
          else " (+" ++ toString (missing_supplier.length - 5) ++ ")"
        Except.error ("Itens sem fornecedor: " ++ nomes ++ extra ++ ".")
      else
        -- 3)-4) group by supplier and create one order per group (lines 392-420)
        let keys := firstKeys (items.map (fun it => it.supplier_id))
        let supplier_orders := keys.map (fun k =>
          (({ number := st.quote.number
              supplier := k
              is_total_conference := false
              status := "OPEN" } : OrderRec),
           (items.filter (fun it => decide (it.supplier_id = k))).map toOrderItem))
        -- 5) the total-conference order, created last (lines 422-441)
        let total_order :=
          (({ number := st.quote.number
              supplier := none
              is_total_conference := true
              status := "OPEN" } : OrderRec),
           items.map toOrderItem)
        -- 6) quote.save(update_fields=["status"]) (lines 443-445)
        -- 7) delete all staged images of this quote (lines 447-455)
        Except.ok
          { st with
            quote := { st.quote with status := QuoteStatus.CONVERTED }
            orders := st.orders ++ supplier_orders ++ [total_order]
            images := [] }

/-- Embeds `quote_convert_to_orders` as a state transformer: `transaction.atomic()`
rolls the database back to the pre-call state when the body raises, and the
view catches the `ValidationError` (sales/views.py lines 476-478), so a
failed conversion leaves the state unchanged. -/
def quote_convert_to_orders (st : ConvSt) : ConvSt :=
  match convertBody st with
  | Except.ok st' => st'
  | Except.error _ => st

/-! ## Quote create/edit views (`quote_create` / `quote_edit`,
sales/views.py lines 202-337), restricted to the POST branch with valid
form data, which is the only branch that persists anything. -/

/-- The fields bound by `QuoteForm` (sales/forms.py lines 17-33).  `status`,
`seller`, `discount_authorized_by` and `discount_authorized_at` are *not*
form fields. -/
structure QuoteFormData where
  number : String
  customer : ℕ
  quote_date : ℕ
  delivery_deadline : Option ℕ
  freight_value : ℚ
  freight_responsible : FreightResponsible
  shipping_company : Option ℕ
  shipping_payment_method : String
  discount_percent : ℚ
  has_architect : Bool
  payment_type : String
  payment_installments : ℕ
  payment_fee_percent : ℚ
deriving Repr, DecidableEq

/-- Embeds `form.save(commit=False)` for a bound `QuoteForm` with `instance=quote`:
the form fields overwrite the instance's fields, everything else is kept. -/
def applyForm (q : Quote) (f : QuoteFormData) : Quote :=
  { q with
    number := f.number
    customer := f.customer
    quote_date := f.quote_date
    delivery_deadline := f.delivery_deadline
    freight_value := f.freight_value
    freight_responsible := f.freight_responsible
    shipping_company := f.shipping_company
    shipping_payment_method := f.shipping_payment_method
    discount_percent := f.discount_percent
    has_architect := f.has_architect
    payment_type := f.payment_type
    payment_installments := f.payment_installments
    payment_fee_percent := f.payment_fee_percent }

/-- Embeds `form.save(commit=False)` for an unbound-instance `QuoteForm` in
`quote_create`: a fresh `Quote` with the form fields and the model defaults
for everything else (sales/models.py lines 40-129). -/
def newQuoteFromForm (f : QuoteFormData) : Quote :=
  applyForm
    { number := ""
      customer := 0
      seller := ""
      status := QuoteStatus.DRAFT
      quote_date := 0
      delivery_deadline := none
      freight_value := 0
      freight_responsible := FreightResponsible.CUSTOMER
      shipping_company := none
      shipping_payment_method := ""
      discount_percent := 0
      discount_authorized_by := none
      discount_authorized_at := none
      has_architect := false
      payment_type := ""
      payment_installments := 1
      payment_fee_percent := 0
      total_value_snapshot := 0 }
    f

/-- Embeds `quote_create` (sales/views.py lines 204-257), POST branch with valid
form/formset, up to the point where `quote.save()` runs.  Inputs: the bound
form data, the logged-in user, the result of `generate_next_quote_number()`,
the optional `discount_authorized_by` POST parameter and the staff-user
lookup.  `Except.ok` is the saved quote; `Except.error` is a
rejected save (`messages.error` + re-render, nothing persisted).

Note: sales/views.py never imports `timezone`, so the branch at line 235
(`quote.discount_authorized_at = timezone.now()`) raises a `NameError`
inside the atomic block; it is modelled as an error. -/
def quote_create (form : QuoteFormData) (user : String) (nextNumber : String)
    (postAuthorizedBy : Option String) (isStaff : String → Bool) :
    Except String Quote :=
  let q0 := newQuoteFromForm form
  let q1 := { q0 with
              seller := user
              status := QuoteStatus.DRAFT
              number := nextNumber }
  -- Auto-set freight value to 0 if customer is responsible (lines 222-223)
  let q2 := if q1.freight_responsible = FreightResponsible.CUSTOMER then
              { q1 with freight_value := 0 }
            else q1
  -- Handle discount authorization for > 15% (lines 226-241);
  -- `quote.discount_percent or Decimal("0")` is a no-op on the non-null field
  let discount_percent : ℚ := q2.discount_percent
  if discount_percent > 15 then
    match postAuthorizedBy with
    | some uname =>
        if isStaff uname then
          -- line 235 references the unimported name `timezone`: NameError
          Except.error "NameError: name timezone is not defined"
        else
          Except.error "Usuário autorizador não encontrado."
    | none => Except.error "Desconto acima de 15% requer autorização."
  else
    Except.ok q2

/-- Embeds `quote_edit` (sales/views.py lines 275-326), POST branch with valid
form/formset, up to `quote_obj.save()`.  `existing` is the stored row the
form was bound to; `quote_obj = form.save(commit=False)` mutates that same
row in place, so the later reads of `quote.discount_authorized_by` and
`quote.discount_percent` (line 297) see the form-bound values. -/
def quote_edit (existing : Quote) (form : QuoteFormData)
    (postAuthorizedBy : Option String) (isStaff : String → Bool) :
    Except String Quote :=
  let q0 := applyForm existing form
  -- Auto-set freight value to 0 if customer is responsible (lines 290-291)
  let q1 := if q0.freight_responsible = FreightResponsible.CUSTOMER then
              { q0 with freight_value := 0 }
            else q0
  let discount_percent : ℚ := q1.discount_percent
  if discount_percent > 15 then
    -- line 297: `if not quote.discount_authorized_by or
    -- quote.discount_percent != discount_percent`; `quote` aliases
    -- `quote_obj`, so the second disjunct compares a value with itself
    if q1.discount_authorized_by = none ∨ q1.discount_percent ≠ discount_percent then
      match postAuthorizedBy with
      | some uname =>
          if isStaff uname then
            -- line 306 references the unimported name `timezone`: NameError
            Except.error "NameError: name timezone is not defined"
          else
            Except.error "Usuário autorizador não encontrado."
      | none => Except.error "Desconto acima de 15% requer autorização."
    else
      Except.ok q1
  else
    Except.ok q1

/-! ## Concrete sample states (used to evaluate the theorems on inputs) -/

/-- A sample approved quote. -/
def exQuote : Quote :=
  { number := "ORC-0001"
    customer := 1
    seller := "vend"
    status := QuoteStatus.APPROVED
    quote_date := 20251001
    delivery_deadline := some 20251110
    freight_value := 50
    freight_responsible := FreightResponsible.STORE
    shipping_company := none
    shipping_payment_method := ""
    discount_percent := 10
    discount_authorized_by := none
    discount_authorized_at := none
    has_architect := false
    payment_type := "PIX"
    payment_installments := 1
    payment_fee_percent := 0
    total_value_snapshot := 0 }

/-- A sample quote item. -/
def exItem (i : ℕ) (sup : Option ℕ) (name : String) : QuoteItem :=
  { id := i
    supplier_id := sup
    product_name := name
    description := ""
    quantity := 1
    unit_value := 100
    condition_text := ""
    architect_percent := 0 }

/-- The spec's grouping example: 3 items from supplier 1 and 2 items from
supplier 2 (interleaved), no pre-existing orders, two staged images. -/
def exStGrouping : ConvSt :=
  { quote := exQuote
    items := [exItem 1 (some 1) "A1", exItem 2 (some 1) "A2",
              exItem 3 (some 2) "B1", exItem 4 (some 1) "A3",
              exItem 5 (some 2) "B2"]
    orders := []
    images := [11, 12] }

/-- A quote that already has an associated order. -/
def exStConverted : ConvSt :=
  { exStGrouping with
    orders := [({ number := "ORC-0001", supplier := some 1,
                  is_total_conference := false, status := "OPEN" }, [])] }

/-- A canceled quote with items. -/
def exStCanceled : ConvSt :=
  { quote := { exQuote with status := QuoteStatus.CANCELED }
    items := exStGrouping.items
    orders := []
    images := [] }

/-- A quote with no items. -/
def exStEmpty : ConvSt :=
  { quote := exQuote, items := [], orders := [], images := [] }

/-- A quote where one item lacks a supplier. -/
def exStMissing : ConvSt :=
  { quote := exQuote
    items := [exItem 1 none "sofa", exItem 2 (some 1) "mesa"]
    orders := []
    images := [] }

/-- A one-item convertible quote (used for the frame-condition check). -/
def exStFrame : ConvSt :=
  { quote := exQuote
    items := [exItem 9 (some 3) "rack"]
    orders := []
    images := [7] }

/-- A convertible quote with a 20% discount and no authorization record. -/
def exStDiscount : ConvSt :=
  { quote := { exQuote with discount_percent := 20, discount_authorized_by := none }
    items := [exItem 1 (some 4) "cama"]
    orders := []
    images := [] }

/-- Sample form data: customer-paid freight, 20% discount. -/
def exForm : QuoteFormData :=
  { number := "ORC-0009"
    customer := 2
    quote_date := 20251005
    delivery_deadline := none
    freight_value := 80
    freight_responsible := FreightResponsible.CUSTOMER
    shipping_company := none
    shipping_payment_method := ""
    discount_percent := 20
    has_architect := false
    payment_type := "CASH"
    payment_installments := 1
    payment_fee_percent := 0 }

/-- Same form data with a 10% discount. -/
def exFormSmallDiscount : QuoteFormData :=
  { exForm with discount_percent := 10 }

/-- A stored quote whose 20% discount already carries an authorization
record. -/
def exQuoteAuthorized : Quote :=
  { exQuote with
    discount_percent := 20
    discount_authorized_by := some "admin"
    discount_authorized_at := some 1 }

/-- Form data keeping the authorized 20% discount. -/
def exFormAuthorized : QuoteFormData :=
  { exForm with discount_percent := 20 }

/-! ## Helper lemmas -/

theorem mem_firstKeys {α : Type} [DecidableEq α] (x : α) (l : List α) :
    x ∈ firstKeys l ↔ x ∈ l := by
  induction l with
  | nil => simp [firstKeys]
  | cons a t ih =>
    simp only [firstKeys, List.mem_cons, List.mem_filter, decide_eq_true_eq, ih]
    by_cases hxa : x = a
    · simp [hxa]
    · simp [hxa]

theorem nodup_firstKeys {α : Type} [DecidableEq α] (l : List α) :
    (firstKeys l).Nodup := by
  induction l with
  | nil => simp [firstKeys]
  | cons a t ih =>
    rw [firstKeys, List.nodup_cons]
    refine ⟨?_, ih.filter _⟩
    intro hmem
    rcases List.mem_filter.mp hmem with ⟨-, hne⟩
    simp at hne

theorem list_sum_map_add {α : Type} (f g : α → ℕ) (l : List α) :
    (l.map (fun x => f x + g x)).sum = (l.map f).sum + (l.map g).sum := by
  induction l with
  | nil => rfl
  | cons a t ih => simp only [List.map_cons, List.sum_cons, ih]; omega

theorem sum_indicator_not_mem {α : Type} [DecidableEq α] (a : α) (l : List α)
    (h : a ∉ l) :
    (l.map (fun k => if a = k then (1 : ℕ) else 0)).sum = 0 := by
  induction l with
  | nil => rfl
  | cons b t ih =>
    have hab : a ≠ b := fun hab => h (hab ▸ List.mem_cons_self b t)
    have hat : a ∉ t := fun hat => h (List.mem_cons_of_mem b hat)
    simp [hab, ih hat]

theorem sum_indicator_nodup {α : Type} [DecidableEq α] (a : α) (l : List α)
    (hnd : l.Nodup) (hmem : a ∈ l) :
    (l.map (fun k => if a = k then (1 : ℕ) else 0)).sum = 1 := by
  induction l with
  | nil => cases hmem
  | cons b t ih =>
    rcases List.nodup_cons.mp hnd with ⟨hbt, hndt⟩
    by_cases hab : a = b
    · subst hab
      simp [sum_indicator_not_mem a t hbt]
    · have hat : a ∈ t := by
        rcases List.mem_cons.mp hmem with h | h
        · exact absurd h hab
        · exact h
      simp [hab, ih hndt hat]

/-- Summing the sizes of the per-key groups over a duplicate-free list of
keys that covers every element recovers the total number of elements. -/
theorem sum_group_lengths {α β : Type} [DecidableEq α] (key : β → α)
    (ks : List α) (hnd : ks.Nodup) (l : List β) (hcov : ∀ x ∈ l, key x ∈ ks) :
    (ks.map (fun k => (l.filter (fun x => decide (key x = k))).length)).sum
      = l.length := by
  induction l with
  | nil => simp
  | cons b t ih =>
    have hb : key b ∈ ks := hcov b (List.mem_cons_self b t)
    have ht : ∀ x ∈ t, key x ∈ ks := fun x hx => hcov x (List.mem_cons_of_mem b hx)
    have hstep : ∀ k : α, ((b :: t).filter (fun x => decide (key x = k))).length
        = (if key b = k then 1 else 0)
          + (t.filter (fun x => decide (key x = k))).length := by
      intro k
      by_cases h : key b = k
      · simp [List.filter_cons, h]; omega
      · simp [List.filter_cons, h]
    simp only [hstep]
    rw [list_sum_map_add, sum_indicator_nodup (key b) ks hnd hb, ih ht]
    simp [Nat.add_comm]

/-- The invariant maintained by the `ArchitectCommission` operations: the
table is empty or holds exactly the row with primary key 1. -/
def acInv (db : List AcRow) : Prop :=
  db = [] ∨ ∃ q : ℚ, db = [{ pk := 1, commission_percent := q }]

theorem acInv_step (db : List AcRow) (op : AcOp) (h : acInv db) :
    acInv (acStep db op) := by
  rcases h with h | ⟨q, h⟩ <;> subst h
  · cases op with
    | save p => right; exact ⟨p, by simp [acStep, acSave]⟩
    | read => right; exact ⟨acDefaultPercent, by simp [acStep, get_commission]⟩
  · cases op with
    | save p => right; exact ⟨p, by simp [acStep, acSave]⟩
    | read => right; exact ⟨q, by simp [acStep, get_commission]⟩

theorem acInv_run (ops : List AcOp) : acInv (acRun ops) := by
  have general : ∀ (l : List AcOp) (db : List AcRow), acInv db →
      acInv (l.foldl acStep db) := by
    intro l
    induction l with
    | nil => intro db h; exact h
    | cons op t ih => intro db h; exact ih (acStep db op) (acInv_step db op h)
  exact general ops [] (Or.inl rfl)

/-- Evaluation of `convertBody` on a state satisfying all four
preconditions: the success branch with its created orders. -/
theorem convertBody_success (st : ConvSt)
    (h1 : st.orders = [])
    (h2 : st.quote.status ≠ QuoteStatus.CANCELED)
    (h3 : st.items ≠ [])
    (h4 : ∀ it ∈ st.items, it.supplier_id ≠ none) :
    convertBody st = Except.ok
      { quote := { st.quote with status := QuoteStatus.CONVERTED }
        items := st.items
        orders :=
          (firstKeys (st.items.map (fun it => it.supplier_id))).map (fun k =>
            (({ number := st.quote.number, supplier := k,
                is_total_conference := false, status := "OPEN" } : OrderRec),
             (st.items.filter (fun it => decide (it.supplier_id = k))).map toOrderItem))
          ++ [(({ number := st.quote.number, supplier := none,
                  is_total_conference := true, status := "OPEN" } : OrderRec),
               st.items.map toOrderItem)]
        images := [] } := by
  have hitems : st.items.isEmpty = false := List.isEmpty_eq_false.mpr h3
  have hmiss : st.items.filter (fun it => decide (it.supplier_id = none)) = [] := by
    rw [List.filter_eq_nil_iff]
    intro it hit
    simpa using h4 it hit
  simp only [convertBody, h1, hmiss, hitems, List.isEmpty_nil, List.nil_append]
  simp [h2]

/-- C1: a successful conversion creates one per-supplier Order
(`is_total_conference = false`, status OPEN) per distinct supplier of the
items — the key list is duplicate-free and covers exactly the suppliers
occurring among the items — each order holding one `OrderItem` per
`QuoteItem` of its supplier's group in original item order (fields copied by
`toOrderItem`), plus exactly one total-conference Order (no supplier,
status OPEN) with one `OrderItem` per `QuoteItem` of the whole quote, created
last; the per-supplier `OrderItem` counts sum to the total-conference
count. -/
theorem quote_convert_success_structure (st : ConvSt)
    (h1 : st.orders = [])
    (h2 : st.quote.status ≠ QuoteStatus.CANCELED)
    (h3 : st.items ≠ [])
    (h4 : ∀ it ∈ st.items, it.supplier_id ≠ none) :
    (firstKeys (st.items.map (fun it => it.supplier_id))).Nodup
    ∧ (∀ s, s ∈ firstKeys (st.items.map (fun it => it.supplier_id)) ↔
        s ∈ st.items.map (fun it => it.supplier_id))
    ∧ convertBody st = Except.ok
        { quote := { st.quote with status := QuoteStatus.CONVERTED }
          items := st.items
          orders :=
            (firstKeys (st.items.map (fun it => it.supplier_id))).map (fun k =>
              (({ number := st.quote.number, supplier := k,
                  is_total_conference := false, status := "OPEN" } : OrderRec),
               (st.items.filter (fun it => decide (it.supplier_id = k))).map toOrderItem))
            ++ [(({ number := st.quote.number, supplier := none,
                    is_total_conference := true, status := "OPEN" } : OrderRec),
                 st.items.map toOrderItem)]
          images := [] }
    ∧ ((firstKeys (st.items.map (fun it => it.supplier_id))).map (fun k =>
          ((st.items.filter (fun it => decide (it.supplier_id = k))).map
            toOrderItem).length)).sum
        = (st.items.map toOrderItem).length := by
  refine ⟨nodup_firstKeys _, fun s => mem_firstKeys s _,
    convertBody_success st h1 h2 h3 h4, ?_⟩
  simp only [List.length_map]
  exact sum_group_lengths (fun it => it.supplier_id)
    (firstKeys (st.items.map (fun it => it.supplier_id)))
    (nodup_firstKeys _) st.items
    (fun it hit => (mem_firstKeys _ _).mpr (List.mem_map_of_mem _ hit))

/-- Witness for C1: the spec's grouping example (3 items of supplier 1, 2 of
supplier 2) converts into 2 per-supplier orders plus 1 total order, and the
total-conference order carries all 5 items. -/
theorem quote_convert_success_structure_witness :
    (convertBody exStGrouping).isOk = true
    ∧ (quote_convert_to_orders exStGrouping).orders.length = 3
    ∧ ((quote_convert_to_orders exStGrouping).orders.getLast?).map
        (fun o => o.2.length) = some 5 := by
  obtain ⟨-, -, hok, -⟩ := quote_convert_success_structure exStGrouping rfl
    (by decide) (by decide) (by decide)
  have hconv : quote_convert_to_orders exStGrouping
      = (match convertBody exStGrouping with
         | Except.ok st' => st'
         | Except.error _ => exStGrouping) := rfl
  rw [hok] at hconv
  refine ⟨by rw [hok]; rfl, ?_, ?_⟩
  · rw [hconv]; rfl
  · rw [hconv]; rfl

/-- C2: the conversion checks its preconditions in a fixed order and rejects
with the corresponding error, mutating nothing: (1) a quote with an
existing order fails as already converted; (2) otherwise a CANCELED quote
fails as canceled; (3) otherwise a quote with no items fails as empty;
(4) otherwise items lacking a supplier fail with a message naming up to 5
offending product names plus a count of the remainder. -/
theorem quote_convert_precondition_order (st : ConvSt) :
    (st.orders ≠ [] →
      convertBody st = Except.error "Este orçamento já foi convertido."
      ∧ quote_convert_to_orders st = st)
    ∧ (st.orders = [] → st.quote.status = QuoteStatus.CANCELED →
      convertBody st = Except.error "Orçamento cancelado não pode ser convertido."
      ∧ quote_convert_to_orders st = st)
    ∧ (st.orders = [] → st.quote.status ≠ QuoteStatus.CANCELED → st.items = [] →
      convertBody st = Except.error "Orçamento sem itens não pode ser convertido."
      ∧ quote_convert_to_orders st = st)
    ∧ (st.orders = [] → st.quote.status ≠ QuoteStatus.CANCELED → st.items ≠ [] →
      st.items.filter (fun it => decide (it.supplier_id = none)) ≠ [] →
      convertBody st = Except.error
        ("Itens sem fornecedor: "
          ++ String.intercalate ", "
              (((st.items.filter (fun it => decide (it.supplier_id = none))).map
                  (fun it => it.product_name)).take 5)
          ++ (if (st.items.filter (fun it => decide (it.supplier_id = none))).length ≤ 5
              then ""
              else " (+"
                ++ toString
                    ((st.items.filter (fun it => decide (it.supplier_id = none))).length - 5)
                ++ ")")
          ++ ".")
      ∧ quote_convert_to_orders st = st) := by
  refine ⟨?_, ?_, ?_, ?_⟩
  · intro h
    have horders : st.orders.isEmpty = false := List.isEmpty_eq_false.mpr h
    have hbody : convertBody st = Except.error "Este orçamento já foi convertido." := by
      simp [convertBody, horders]
    exact ⟨hbody, by simp [quote_convert_to_orders, hbody]⟩
  · intro h1 h2
    have hbody : convertBody st
        = Except.error "Orçamento cancelado não pode ser convertido." := by
      simp [convertBody, h1, h2]
    exact ⟨hbody, by simp [quote_convert_to_orders, hbody]⟩
  · intro h1 h2 h3
    have hbody : convertBody st
        = Except.error "Orçamento sem itens não pode ser convertido." := by
      simp [convertBody, h1, h2, h3]
    exact ⟨hbody, by simp [quote_convert_to_orders, hbody]⟩
  · intro h1 h2 h3 h4
    have hitems : st.items.isEmpty = false := List.isEmpty_eq_false.mpr h3
    have hmiss : (st.items.filter (fun it => decide (it.supplier_id = none))).isEmpty
        = false := List.isEmpty_eq_false.mpr h4
    have hbody : convertBody st = Except.error
        ("Itens sem fornecedor: "
          ++ String.intercalate ", "
              (((st.items.filter (fun it => decide (it.supplier_id = none))).map
                  (fun it => it.product_name)).take 5)
          ++ (if (st.items.filter (fun it => decide (it.supplier_id = none))).length ≤ 5
              then ""
              else " (+"
                ++ toString
                    ((st.items.filter (fun it => decide (it.supplier_id = none))).length - 5)
                ++ ")")
          ++ ".") := by
      simp [convertBody, h1, h2, hitems, hmiss, List.map_take]
    exact ⟨hbody, by simp [quote_convert_to_orders, hbody]⟩

/-- Witness for C2: the four rejection branches evaluated on concrete
states (already-converted, canceled, empty, missing supplier). -/
theorem quote_convert_precondition_order_witness :
    quote_convert_to_orders exStConverted = exStConverted
    ∧ convertBody exStCanceled
        = Except.error "Orçamento cancelado não pode ser convertido."
    ∧ convertBody exStEmpty
        = Except.error "Orçamento sem itens não pode ser convertido."
    ∧ convertBody exStMissing = Except.error "Itens sem fornecedor: sofa." := by
  refine ⟨((quote_convert_precondition_order exStConverted).1 (by decide)).2,
    ((quote_convert_precondition_order exStCanceled).2.1 rfl rfl).1,
    ((quote_convert_precondition_order exStEmpty).2.2.1 rfl (by decide) rfl).1,
    ?_⟩
  have h := ((quote_convert_precondition_order exStMissing).2.2.2 rfl (by decide)
    (by decide) (by decide)).1
  rw [h]
  rfl

/-- C3: the conversion is atomic — whenever the transaction body raises
(any of the validation failures included), the state after the call equals
the state before it: no orders created, quote row unchanged, images kept. -/
theorem quote_convert_rollback (st : ConvSt) (e : String)
    (h : convertBody st = Except.error e) :
    quote_convert_to_orders st = st
    ∧ (quote_convert_to_orders st).orders = st.orders
    ∧ (quote_convert_to_orders st).quote = st.quote
    ∧ (quote_convert_to_orders st).images = st.images := by
  have hmain : quote_convert_to_orders st = st := by
    simp [quote_convert_to_orders, h]
  exact ⟨hmain, by rw [hmain], by rw [hmain], by rw [hmain]⟩

/-- Witness for C3: a failing conversion (missing supplier) leaves the
concrete state untouched. -/
theorem quote_convert_rollback_witness :
    quote_convert_to_orders exStMissing = exStMissing := by
  have h : convertBody exStMissing = Except.error "Itens sem fornecedor: sofa." := rfl
  exact (quote_convert_rollback exStMissing _ h).1

/-- C7: on success the quote row is updated to CONVERTED and nothing else —
the resulting `Quote` record equals the old one with only `status`
replaced. -/
theorem quote_convert_frame (st st' : ConvSt)
    (h : convertBody st = Except.ok st') :
    st'.quote = { st.quote with status := QuoteStatus.CONVERTED } := by
  simp only [convertBody] at h
  split_ifs at h
  all_goals
    first
      | exact Except.noConfusion h
      | (injection h with h2; rw [← h2])

/-- Witness for C7: converting a concrete one-item quote changes exactly the
status field of the quote row. -/
theorem quote_convert_frame_witness :
    (quote_convert_to_orders exStFrame).quote
      = { exStFrame.quote with status := QuoteStatus.CONVERTED } := by
  have h : convertBody exStFrame = Except.ok (quote_convert_to_orders exStFrame) := rfl
  exact quote_convert_frame exStFrame _ h

/-- C4: the pricing calculator computes subtotal = Σ (unit value × quantity)
(0 for no items); total with freight and discount
= (subtotal + freight) × (1 − discount/100), i.e. the discount applies to
the freight-inclusive amount; payment fee = that total × (fee percent/100);
final total = total + fee — all in exact arithmetic. -/
theorem pricing_steps (q : Quote) (items : List QuoteItem) :
    calculate_subtotal items
      = (items.map (fun it => it.unit_value * (it.quantity : ℚ))).sum
    ∧ calculate_subtotal ([] : List QuoteItem) = 0
    ∧ calculate_total_with_freight_and_discount q items
      = (calculate_subtotal items + q.freight_value) * (1 - q.discount_percent / 100)
    ∧ calculate_payment_fee_value q items
      = calculate_total_with_freight_and_discount q items * (q.payment_fee_percent / 100)
    ∧ calculate_final_total q items
      = calculate_total_with_freight_and_discount q items
        + calculate_payment_fee_value q items := by
  refine ⟨rfl, rfl, ?_, ?_, rfl⟩
  · simp only [calculate_total_with_freight_and_discount]
    ring
  · simp only [calculate_payment_fee_value]
    ring

/-- C9: after any sequence of `save`/`get_commission` operations on an
initially empty table, at most one `ArchitectCommission` row exists and
every row has primary key 1; another save updates that same single row; a
read leaves exactly one row, which stores the returned percentage (so an
absent row is lazily created with the default). -/
theorem architect_commission_singleton (ops : List AcOp) (p : ℚ) :
    (acRun ops).length ≤ 1
    ∧ (acRun ops).all (fun r => r.pk == 1) = true
    ∧ acSave (acRun ops) p = [{ pk := 1, commission_percent := p }]
    ∧ ((get_commission (acRun ops)).2).length = 1
    ∧ ((get_commission (acRun ops)).2).find? (fun r => r.pk == 1)
      = some { pk := 1, commission_percent := (get_commission (acRun ops)).1 } := by
  rcases acInv_run ops with h | ⟨q, h⟩ <;> rw [h]
  · exact ⟨by simp, rfl, rfl, rfl, rfl⟩
  · exact ⟨by simp, rfl, rfl, rfl, rfl⟩

/-- With a zero freight value the freight term vanishes from the pricing
calculation. -/
theorem twfd_of_zero_freight (q : Quote) (items : List QuoteItem)
    (h : q.freight_value = 0) :
    calculate_total_with_freight_and_discount q items
      = calculate_subtotal items * (1 - q.discount_percent / 100) := by
  simp only [calculate_total_with_freight_and_discount, h]
  ring

/-- C10: a successful save through `quote_create` or `quote_edit` with
`freight_responsible = CUSTOMER` persists `freight_value = 0` whatever
freight value the form submitted, so the pricing calculator's freight term
is 0 for such quotes. -/
theorem freight_forced_zero_for_customer :
    (∀ (form : QuoteFormData) (user nextNumber : String) (pa : Option String)
        (isStaff : String → Bool) (q : Quote),
      quote_create form user nextNumber pa isStaff = Except.ok q →
      form.freight_responsible = FreightResponsible.CUSTOMER →
      q.freight_value = 0
      ∧ ∀ items, calculate_total_with_freight_and_discount q items
          = calculate_subtotal items * (1 - q.discount_percent / 100))
    ∧ (∀ (existing : Quote) (form : QuoteFormData) (pa : Option String)
        (isStaff : String → Bool) (q : Quote),
      quote_edit existing form pa isStaff = Except.ok q →
      form.freight_responsible = FreightResponsible.CUSTOMER →
      q.freight_value = 0
      ∧ ∀ items, calculate_total_with_freight_and_discount q items
          = calculate_subtotal items * (1 - q.discount_percent / 100)) := by
  constructor
  · intro form user nextNumber pa isStaff q hc hfr
    have hq : q.freight_value = 0 := by
      simp [quote_create, newQuoteFromForm, applyForm, hfr] at hc
      split at hc
      · split at hc
        · split_ifs at hc
        · exact Except.noConfusion hc
      · injection hc with h2
        rw [← h2]
    exact ⟨hq, fun items => twfd_of_zero_freight q items hq⟩
  · intro existing form pa isStaff q he hfr
    have hq : q.freight_value = 0 := by
      simp [quote_edit, applyForm, hfr] at he
      split at he
      · split at he
        · split at he
          · split_ifs at he
          · exact Except.noConfusion he
        · injection he with h2
          rw [← h2]
      · injection he with h2
        rw [← h2]
    exact ⟨hq, fun items => twfd_of_zero_freight q items hq⟩

/-- Witness for C10: concrete customer-freight form data (freight 80
submitted) saved through both views ends up with freight value 0. -/
theorem freight_forced_zero_for_customer_witness :
    (quote_create exFormSmallDiscount "vend" "ORC-0002" none
        (fun _ => false)).toOption.map Quote.freight_value = some 0
    ∧ (quote_edit exQuote exFormSmallDiscount none
        (fun _ => false)).toOption.map Quote.freight_value = some 0 := by
  constructor
  · obtain ⟨q, hq⟩ : ∃ q, quote_create exFormSmallDiscount "vend" "ORC-0002" none
        (fun _ => false) = Except.ok q := ⟨_, rfl⟩
    obtain ⟨h0, -⟩ := freight_forced_zero_for_customer.1 exFormSmallDiscount
      "vend" "ORC-0002" none (fun _ => false) q hq rfl
    rw [hq]
    exact congrArg some h0
  · obtain ⟨q, hq⟩ : ∃ q, quote_edit exQuote exFormSmallDiscount none
        (fun _ => false) = Except.ok q := ⟨_, rfl⟩
    obtain ⟨h0, -⟩ := freight_forced_zero_for_customer.2 exQuote exFormSmallDiscount
      none (fun _ => false) q hq rfl
    rw [hq]
    exact congrArg some h0

/-- Counterexample for C8 as stated: a quote with a 20% discount and no
authorization record is *not* rejected by the conversion — `convertBody`
succeeds, because `quote_convert_to_orders` performs no
discount-authorization check. -/
theorem discount_unauthorized_conversion_accepted :
    exStDiscount.quote.discount_percent > 15
    ∧ exStDiscount.quote.discount_authorized_by = none
    ∧ (convertBody exStDiscount).isOk = true := by
  refine ⟨by norm_num [exStDiscount, exQuote], rfl, rfl⟩

/-- C8 (amended): a discount strictly above 15% with no authorization record
is rejected when saving through the create/edit views (never silently
ignored); an edit whose stored quote already carries the authorization
record proceeds; and the conversion operation checks no discount
authorization at all — it succeeds on any state meeting the four conversion
preconditions, whatever the discount and authorization fields hold. -/
theorem discount_authorization_behavior :
    (∀ (form : QuoteFormData) (user nextNumber : String)
        (isStaff : String → Bool),
      form.discount_percent > 15 →
      quote_create form user nextNumber none isStaff
        = Except.error "Desconto acima de 15% requer autorização.")
    ∧ (∀ (existing : Quote) (form : QuoteFormData) (isStaff : String → Bool),
      form.discount_percent > 15 → existing.discount_authorized_by = none →
      quote_edit existing form none isStaff
        = Except.error "Desconto acima de 15% requer autorização.")
    ∧ (∀ (existing : Quote) (form : QuoteFormData) (pa : Option String)
        (isStaff : String → Bool) (a : String),
      form.discount_percent > 15 → existing.discount_authorized_by = some a →
      (quote_edit existing form pa isStaff).isOk = true)
    ∧ (∀ st : ConvSt, st.orders = [] →
      st.quote.status ≠ QuoteStatus.CANCELED → st.items ≠ [] →
      (∀ it ∈ st.items, it.supplier_id ≠ none) →
      (convertBody st).isOk = true) := by
  refine ⟨?_, ?_, ?_, ?_⟩
  · intro form user nextNumber isStaff h15
    by_cases hfr : form.freight_responsible = FreightResponsible.CUSTOMER <;>
      simp [quote_create, newQuoteFromForm, applyForm, hfr, h15]
  · intro existing form isStaff h15 hauth
    by_cases hfr : form.freight_responsible = FreightResponsible.CUSTOMER <;>
      simp [quote_edit, applyForm, hfr, h15, hauth]
  · intro existing form pa isStaff a h15 hauth
    by_cases hfr : form.freight_responsible = FreightResponsible.CUSTOMER <;>
      simp [quote_edit, applyForm, hfr, h15, hauth] <;> rfl
  · intro st h1 h2 h3 h4
    rw [convertBody_success st h1 h2 h3 h4]
    rfl

/-- Witness for C8 (amended), at concrete inputs: create and edit reject the
unauthorized 20% discount, an edit with a pre-existing authorization record
goes through, and conversion succeeds without any discount check. -/
theorem discount_authorization_behavior_witness :
    quote_create exForm "vend" "ORC-0002" none (fun u => u == "admin")
      = Except.error "Desconto acima de 15% requer autorização."
    ∧ quote_edit exQuote exForm none (fun u => u == "admin")
      = Except.error "Desconto acima de 15% requer autorização."
    ∧ (quote_edit exQuoteAuthorized exFormAuthorized none
        (fun u => u == "admin")).isOk = true
    ∧ (convertBody exStDiscount).isOk = true := by
  refine ⟨discount_authorization_behavior.1 exForm "vend" "ORC-0002" _ (by norm_num [exForm]),
    discount_authorization_behavior.2.1 exQuote exForm _ (by norm_num [exForm]) rfl,
    discount_authorization_behavior.2.2.1 exQuoteAuthorized exFormAuthorized none _
      "admin" (by norm_num [exFormAuthorized, exForm]) rfl,
    discount_authorization_behavior.2.2.2 exStDiscount rfl (by decide) (by decide)
      (by decide)⟩

/-- The code's check-digit computation (`= 10 ↦ 0`) agrees with the spec's
wording (`≥ 10 ↦ 0`), since the remainder is below 11. -/
theorem cpfCheckDigit_eq_spec (ds : List ℕ) (i : ℕ) :
    cpfCheckDigit ds i = cpfCheckDigitSpec ds i := by
  unfold cpfCheckDigit cpfCheckDigitSpec
  have h : (cpfWeightedSum ds i * 10) % 11 < 11 := Nat.mod_lt _ (by norm_num)
  by_cases h10 : (cpfWeightedSum ds i * 10) % 11 = 10
  · simp [h10]
  · have hlt : ¬ (10 ≤ (cpfWeightedSum ds i * 10) % 11) := by omega
    simp [h10, hlt]

/-- C5: person-ID validation strips non-digits and passes exactly when the
stripped string has length 11, the 11 digits are not all equal, and both
check digits match the weighted-sum-mod-11 rule with remainder ≥ 10 mapped
to 0 (the function is a pure Lean function, hence deterministic and
side-effect free). -/
theorem validate_cpf_characterization (value : String) :
    validate_cpf value = Except.ok () ↔
      ((only_digits value).length = 11
        ∧ ¬ (∀ c ∈ only_digits value, c = (only_digits value).headD '0')
        ∧ cpfCheckDigitSpec ((only_digits value).map digitVal) 9
            = ((only_digits value).map digitVal).getD 9 0
        ∧ cpfCheckDigitSpec ((only_digits value).map digitVal) 10
            = ((only_digits value).map digitVal).getD 10 0) := by
  simp only [validate_cpf, cpfCheckDigit_eq_spec]
  split_ifs with h1 h2 h3
  · refine iff_of_false (by simp) ?_
    rintro ⟨hlen, hnall, -, -⟩
    rcases h1 with hl | hrep
    · exact hl hlen
    · exact hnall (List.eq_replicate_iff.mp hrep).2
  · refine iff_of_false (by simp) ?_
    rintro ⟨-, -, h9, -⟩
    exact h2 h9
  · refine iff_of_false (by simp) ?_
    rintro ⟨-, -, -, h10⟩
    exact h3 h10
  · rcases not_or.mp h1 with ⟨hlen', hrep'⟩
    have hlen : (only_digits value).length = 11 := not_not.mp hlen'
    refine iff_of_true rfl ⟨hlen, ?_, not_not.mp h2, not_not.mp h3⟩
    intro hall
    exact hrep' (List.eq_replicate_iff.mpr ⟨hlen, hall⟩)

/-- C6: company-ID validation strips non-digits and passes exactly when the
stripped string has length 14, the 14 digits are not all equal, and both
check digits match the rule `digit = 11 − (weighted sum mod 11)` with
results ≥ 10 mapped to 0, using the two fixed weight vectors of lengths 12
and 13. -/
theorem validate_cnpj_characterization (value : String) :
    validate_cnpj value = Except.ok () ↔
      (cnpjWeights1.length = 12 ∧ cnpjWeights2.length = 13
        ∧ (only_digits value).length = 14
        ∧ ¬ (∀ c ∈ only_digits value, c = (only_digits value).headD '0')
        ∧ cnpjCheckDigitSpec ((only_digits value).map digitVal) cnpjWeights1
            = ((only_digits value).map digitVal).getD 12 0
        ∧ cnpjCheckDigitSpec ((only_digits value).map digitVal) cnpjWeights2
            = ((only_digits value).map digitVal).getD 13 0) := by
  have hspec : ∀ ds ws, cnpjCheckDigit ds ws = cnpjCheckDigitSpec ds ws :=
    fun ds ws => rfl
  simp only [validate_cnpj, hspec]
  split_ifs with h1 h2 h3
  · refine iff_of_false (by simp) ?_
    rintro ⟨-, -, hlen, hnall, -, -⟩
    rcases h1 with hl | hrep
    · exact hl hlen
    · exact hnall (List.eq_replicate_iff.mp hrep).2
  · refine iff_of_false (by simp) ?_
    rintro ⟨-, -, -, -, h12, -⟩
    exact h2 h12
  · refine iff_of_false (by simp) ?_
    rintro ⟨-, -, -, -, -, h13⟩
    exact h3 h13
  · rcases not_or.mp h1 with ⟨hlen', hrep'⟩
    have hlen : (only_digits value).length = 14 := not_not.mp hlen'
    refine iff_of_true rfl ⟨rfl, rfl, hlen, ?_, not_not.mp h2, not_not.mp h3⟩
    intro hall
    exact hrep' (List.eq_replicate_iff.mpr ⟨hlen, hall⟩)

end Roselar
